import Mathlib

/-!
Shallow embedding of the plantpoint-arduino MQTT/serial bridge
(`src/mpino_bridge.py`, configuration constants from `src/config.py`).

JSON values are modelled by `JVal`; Python dicts (which preserve insertion
order) are association lists with unique keys.  Side effects of the bridge
(MQTT publishes, queue offers, log records, HTTP requests, serial writes)
are recorded as explicit `Effect` lists.  HTTP responses are supplied by an
oracle (`HttpResult`) so that backend failure modes can be quantified over.
-/

set_option maxRecDepth 4000

/-- JSON values as produced by `json.loads`.  Python `None` is `null`;
numbers are modelled as integers (no claim involves fractional values). -/
inductive JVal where
  | null : JVal
  | bool : Bool → JVal
  | num : Int → JVal
  | str : String → JVal
  | arr : List JVal → JVal
  | obj : List (String × JVal) → JVal
deriving Repr, BEq

/-- `d.get(key)` on a Python dict: first binding of the key, if any. -/
def jGet : List (String × JVal) → String → Option JVal
  | [], _ => none
  | (k, v) :: rest, key => if k = key then some v else jGet rest key

/-- `d.get(key)` collapsed with Python's `None` default: a missing key and a
stored JSON `null` are both Python `None`. -/
def jGetD (fields : List (String × JVal)) (key : String) (d : JVal) : JVal :=
  (jGet fields key).getD d

/-- `d[key] = v` on a Python dict: update in place, or append a new binding. -/
def dictSet : List (String × JVal) → String → JVal → List (String × JVal)
  | [], k, v => [(k, v)]
  | (k', v') :: rest, k, v =>
      if k' = k then (k, v) :: rest else (k', v') :: dictSet rest k v

/-- Python truthiness of a JSON value (`if not access_token: ...`). -/
def pyTruthy : JVal → Bool
  | .null => false
  | .bool b => b
  | .num n => n != 0
  | .str s => s != ""
  | .arr xs => !xs.isEmpty
  | .obj kvs => !kvs.isEmpty

/-- Python `==` on JSON values.  `bool` is a subtype of `int` in Python, so
`True == 1` and `False == 0`; all remaining cases are structural. -/
def pyEq : JVal → JVal → Bool
  | .bool a, .num n => (if a then (1 : Int) else 0) == n
  | .num n, .bool a => n == (if a then (1 : Int) else 0)
  | a, b => a == b

/-- Python `str.startswith`. -/
def pyStartsWith (s pre : String) : Bool :=
  pre.toList.isPrefixOf s.toList

/-- Core of Python `str.replace`: replace every non-overlapping occurrence
of `pat`, scanning left to right; structural recursion on a fuel argument
(one unit per input character suffices, since each step consumes at least
one character).  The bridge only ever replaces the non-empty patterns
`"switch/"` and `"current/"`; the empty-pattern edge is treated as the
identity. -/
def replaceFuel (pat rep : List Char) : Nat → List Char → List Char
  | 0, l => l
  | _ + 1, [] => []
  | fuel + 1, c :: rest =>
    if pat.length ≠ 0 ∧ pat.isPrefixOf (c :: rest) then
      rep ++ replaceFuel pat rep fuel (rest.drop (pat.length - 1))
    else c :: replaceFuel pat rep fuel rest

/-- Python `str.replace` on strings. -/
def pyReplace (s pat rep : String) : String :=
  String.mk (replaceFuel pat.toList rep.toList s.toList.length s.toList)

/-- One character of `json.dumps` string escaping. -/
def escChar (c : Char) : String :=
  if c = '"' then "\\\""
  else if c = '\\' then "\\\\"
  else if c = '\n' then "\\n"
  else if c = '\t' then "\\t"
  else if c = '\r' then "\\r"
  else String.singleton c

/-- `json.dumps` escaping of a string body. -/
def escStr (s : String) : String :=
  String.join (s.toList.map escChar)

mutual

/-- `json.dumps` with CPython's default separators (`", "` and `": "`). -/
def dumps : JVal → String
  | .null => "null"
  | .bool b => if b then "true" else "false"
  | .num n => toString n
  | .str s => "\"" ++ escStr s ++ "\""
  | .arr xs => "[" ++ dumpsArr xs ++ "]"
  | .obj kvs => "\x7b" ++ dumpsObj kvs ++ "\x7d"

/-- Comma-separated serialization of array elements. -/
def dumpsArr : List JVal → String
  | [] => ""
  | [x] => dumps x
  | x :: xs => dumps x ++ ", " ++ dumpsArr xs

/-- Comma-separated serialization of object members. -/
def dumpsObj : List (String × JVal) → String
  | [] => ""
  | [(k, v)] => "\"" ++ escStr k ++ "\": " ++ dumps v
  | (k, v) :: kvs => "\"" ++ escStr k ++ "\": " ++ dumps v ++ ", " ++ dumpsObj kvs

end

/-- Severity levels of the `logging` module as used by the bridge. -/
inductive LogLevel where
  | debug | info | warning | error
deriving Repr, BEq, DecidableEq

/-- Observable side effects of the bridge, in program order.  `publish`
records a `client.publish` call (topic, serialized payload, retain flag);
`queuePut` records a `ser_tx_q.put_nowait` call; `httpPost`/`httpGet` record
`requests` calls; `serialWrite` records a direct `ser.write`. -/
inductive Effect where
  | publish (topic : String) (payload : String) (retain : Bool)
  | queuePut (line : String)
  | log (lvl : LogLevel) (site : String)
  | httpPost (url : String)
  | httpGet (url : String)
  | serialWrite (line : String)
  | loopStop
  | serialClose
  | exitProc (code : Nat)
deriving Repr, BEq, DecidableEq

/-- `process_serial_line` (src/mpino_bridge.py:143-180).  The argument is the
result of `safe_json_loads` on the line; the state is the global
`last_states` dict.  Returns the updated state and the effects performed. -/
def process_serial_line (j : Option JVal) (last_states : List (String × JVal)) :
    List (String × JVal) × List Effect :=
  match j with
  | some (.obj fields) =>
    let cmd := jGet fields "cmd"
    let dev := jGet fields "dev"
    let val := jGetD fields "val" .null
    match cmd, dev with
    | some (.str c), some (.str d) =>
      if c = "current" then
        let payload := JVal.obj
          [("pattern", .str ("current/" ++ d)),
           ("data", .obj [("name", .str d), ("value", val)])]
        (dictSet last_states ("current/" ++ d) val,
         [.publish ("current/" ++ d) (dumps payload) false,
          .log .info "published current"])
      else if c = "switch" then
        if pyEq (jGetD last_states ("switch/" ++ d) .null) val then
          (last_states, [.log .debug "no change for switch"])
        else
          (dictSet last_states ("switch/" ++ d) val,
           [.log .info "switch state change"])
      else (last_states, [.log .warning "unsupported cmd"])
    | _, _ => (last_states, [.log .warning "unsupported cmd"])
  | _ => (last_states, [.log .warning "ignored non-JSON serial line"])

/-- Backend URL constants (src/config.py BackendConfig, default values). -/
def baseUrl : String := "http://172.30.1.38:3000/api"

/-- `/authentication/signin` endpoint used by `get_auth_token`. -/
def signinUrl : String := baseUrl ++ "/authentication/signin"

/-- `/device/all` endpoint used by `fetch_devices_from_backend`. -/
def devicesUrl : String := baseUrl ++ "/device/all"

/-- `/reports/create` endpoint used by the shutdown handler. -/
def reportUrl : String := baseUrl ++ "/reports/create"

/-- STATUS_TOPIC (src/mpino_bridge.py:46). -/
def statusTopic : String := "status/mpino_bridge_strict"

/-- Outcome of a `requests` call, supplied by an oracle: either the request
raised (network error / timeout), or a response with a status code and a
JSON body (`none` when the body is not valid JSON). -/
inductive HttpResult where
  | netError : HttpResult
  | resp (status : Nat) (body : Option JVal) : HttpResult
deriving Repr, BEq

/-- `get_auth_token` (src/mpino_bridge.py:200-225).  Returns the token
(`response.json().get('accessToken')` when truthy) and the effects.
`raise_for_status` raises for 4xx/5xx; every raise is caught and logged. -/
def get_auth_token (r : HttpResult) : Option JVal × List Effect :=
  let pre := [Effect.log .info "getting auth token", Effect.httpPost signinUrl]
  match r with
  | .netError => (none, pre ++ [Effect.log .error "error getting auth token"])
  | .resp s body =>
    if 400 ≤ s ∧ s < 600 then
      (none, pre ++ [Effect.log .error "error getting auth token"])
    else
      match body with
      | some (.obj fields) =>
        let tok := jGetD fields "accessToken" .null
        if pyTruthy tok then
          (some tok, pre ++ [Effect.log .info "obtained auth token"])
        else
          (none, pre ++ [Effect.log .error "no access token in response"])
      | _ => (none, pre ++ [Effect.log .error "error getting auth token"])

/-- HTTP oracle for one device-config synchronization: the signin POST
response and the device-list GET response. -/
structure Backend where
  signinR : HttpResult
  devicesR : HttpResult

/-- Checks that every element of the fetched array is a JSON object; a
non-object element makes `d.get('type')` raise `AttributeError`, which the
enclosing `except` turns into an empty result. -/
def allObjs : List JVal → Option (List (List (String × JVal)))
  | [] => some []
  | .obj f :: rest => (allObjs rest).map (f :: ·)
  | _ => none

/-- The list comprehension `[d for d in all_devices if d.get('type') == 'machine']`
(src/mpino_bridge.py:246). -/
def machineFilter (devices : List (List (String × JVal))) :
    List (List (String × JVal)) :=
  devices.filter (fun d => pyEq (jGetD d "type" .null) (.str "machine"))

/-- `fetch_devices_from_backend` (src/mpino_bridge.py:227-254).  Any failure
(no token, network error, non-200, body not a JSON array of objects) yields
the empty list. -/
def fetch_devices_from_backend (be : Backend) :
    List (List (String × JVal)) × List Effect :=
  let (tok, e1) := get_auth_token be.signinR
  match tok with
  | none => ([], e1 ++ [Effect.log .error "failed to get auth token"])
  | some _ =>
    let e2 := e1 ++ [Effect.log .info "fetching devices from backend",
                     Effect.httpGet devicesUrl]
    match be.devicesR with
    | .netError => ([], e2 ++ [Effect.log .error "error fetching devices"])
    | .resp s body =>
      if s = 200 then
        match body with
        | some (.arr ds) =>
          match allObjs ds with
          | some dicts =>
            (machineFilter dicts,
             e2 ++ [Effect.log .info "fetched machine devices"])
          | none => ([], e2 ++ [Effect.log .error "error fetching devices"])
        | _ => ([], e2 ++ [Effect.log .error "error fetching devices"])
      else ([], e2 ++ [Effect.log .error "failed to fetch devices http"])

/-- The three keys required of each device entry (src/mpino_bridge.py:290). -/
def requiredKeys : List String := ["name", "relay_pin", "current_pin"]

/-- `all(key in device for key in ['name', 'relay_pin', 'current_pin'])`. -/
def hasRequiredKeys (d : List (String × JVal)) : Bool :=
  requiredKeys.all (fun k => (jGet d k).isSome)

/-- The conversion loop of `send_config_to_mpino` (src/mpino_bridge.py:287-298):
entries missing a required field are skipped with a warning; the rest are
mapped to MPINO config entries in input order. -/
def buildMpinoDevices : List (List (String × JVal)) → List JVal × List Effect
  | [] => ([], [])
  | d :: rest =>
    let (tail, effs) := buildMpinoDevices rest
    if hasRequiredKeys d then
      (JVal.obj [("name", jGetD d "name" .null),
                 ("relay", jGetD d "relay_pin" .null),
                 ("current", jGetD d "current_pin" .null)] :: tail, effs)
    else
      (tail, Effect.log .warning "device missing required fields" :: effs)

/-- `send_config_to_mpino` (src/mpino_bridge.py:280-322).  `writeOk` is the
oracle for whether `ser.write`/`ser.flush` raises. -/
def send_config_to_mpino (writeOk : Bool)
    (devices_data : List (List (String × JVal))) : Bool × List Effect :=
  if devices_data.isEmpty then
    (false, [Effect.log .warning "no devices to configure"])
  else
    let (mpino_devices, warnEffs) := buildMpinoDevices devices_data
    if mpino_devices.isEmpty then
      (false, warnEffs ++ [Effect.log .error "no valid devices to configure"])
    else
      let config_line :=
        dumps (JVal.obj [("cmd", .str "config"),
                         ("devices", .arr mpino_devices)]) ++ "\n"
      if writeOk then
        (true, warnEffs ++ [Effect.log .info "sending config",
                            Effect.serialWrite config_line,
                            Effect.log .info "config sent"])
      else
        (false, warnEffs ++ [Effect.log .info "sending config",
                             Effect.serialWrite config_line,
                             Effect.log .error "failed to send config"])

/-- `handle_device_update` (src/mpino_bridge.py:256-278).  `serialAvail`
models whether the global `serial_port` is set. -/
def handle_device_update (be : Backend) (serialAvail writeOk : Bool)
    (payload : Option JVal) : List Effect :=
  let e0 := [Effect.log .info "device update notification received"]
  match payload with
  | some (.obj _) =>
    let (ds, e1) := fetch_devices_from_backend be
    if ds.isEmpty then
      e0 ++ e1 ++ [Effect.log .warning "no machine devices found after update"]
    else if serialAvail then
      e0 ++ e1 ++ (send_config_to_mpino writeOk ds).2
    else
      e0 ++ e1 ++ [Effect.log .error "serial port not available"]
  | _ => e0 ++ [Effect.log .warning "invalid device update payload"]

/-- `ser_tx_q = queue.Queue(maxsize=200)` (src/mpino_bridge.py:49). -/
def serTxQMaxsize : Nat := 200

/-- `ser_tx_q.put_nowait(line)`: accept when below capacity, otherwise
reject without blocking; returns the new queue and whether it accepted. -/
def put_nowait (q : List String) (line : String) : List String × Bool :=
  if q.length < serTxQMaxsize then (q ++ [line], true) else (q, false)

/-- The serial switch command line `json.dumps({"cmd":"switch","dev":name,"val":val}) + "\n"`
(src/mpino_bridge.py:108-109). -/
def switchLine (name : String) (val : Bool) : String :=
  dumps (JVal.obj [("cmd", .str "switch"), ("dev", .str name),
                   ("val", .bool val)]) ++ "\n"

/-- `on_mqtt_message` (src/mpino_bridge.py:75-114).  The `payload` argument
is the result of `safe_json_loads` on the decoded, stripped message body;
`q` is the outbound serial queue.  Returns the new queue and the effects. -/
def on_mqtt_message (be : Backend) (serialAvail writeOk : Bool)
    (topic : String) (payload : Option JVal) (q : List String) :
    List String × List Effect :=
  let recv := [Effect.log .info "mqtt recv"]
  if topic = "device/update" then
    (q, recv ++ handle_device_update be serialAvail writeOk payload)
  else
    match payload with
    | some (.obj j) =>
      match jGet j "pattern", jGet j "data" with
      | some (.str pat), some (.obj data) =>
        if pyStartsWith pat "switch/" then
          match jGet data "name", jGet data "value" with
          | some (.str name), some (.bool val) =>
            let line := switchLine name val
            let (q', ok) := put_nowait q line
            if ok then
              (q', recv ++ [Effect.queuePut line,
                            Effect.log .info "enqueued to serial"])
            else
              (q', recv ++ [Effect.queuePut line,
                            Effect.log .error "serial queue full - dropping command"])
          | _, _ =>
            (q, recv ++ [Effect.log .warning "name must be string and value must be boolean"])
        else (q, recv ++ [Effect.log .warning "pattern not switch"])
      | _, _ =>
        (q, recv ++ [Effect.log .warning "missing or invalid pattern or data"])
    | _ => (q, recv ++ [Effect.log .warning "payload is not JSON object"])

/-- The mutable process state read and written by the shutdown handler:
the `shutdown_flag` and `last_states` globals (src/mpino_bridge.py:28-31). -/
structure BridgeState where
  shutdown_flag : Bool
  last_states : List (String × JVal)
deriving Repr, BEq

/-- Module-load values: `last_states = {}`, `shutdown_flag = False`. -/
def initialBridgeState : BridgeState :=
  { shutdown_flag := false, last_states := [] }

/-- Failure oracle for one shutdown run: the signin and report HTTP
outcomes, and which `client.publish` calls (numbered in order) raise. -/
structure ShutdownEnv where
  signinR : HttpResult
  reportR : HttpResult
  pubRaises : Nat → Bool

/-- The error-report block of `shutdown` (src/mpino_bridge.py:377-395):
token fetch, then a POST whose raise is caught by the enclosing `except`. -/
def shutdownReport (signinR reportR : HttpResult) : List Effect :=
  let (tok, e1) := get_auth_token signinR
  match tok with
  | none => e1 ++ [Effect.log .warning "could not get auth token for error report"]
  | some _ =>
    match reportR with
    | .netError =>
      e1 ++ [Effect.httpPost reportUrl,
             Effect.log .error "could not send error report"]
    | .resp s _ =>
      e1 ++ [Effect.httpPost reportUrl,
             if s = 201 then Effect.log .info "error report sent"
             else Effect.log .warning "failed to send error report"]

/-- The JSON payload `{"pattern":"<kind>/<dev>","data":{"name":<dev>,"value":false}}`
published for each tracked key during shutdown. -/
def offPayload (kind dev : String) : JVal :=
  .obj [("pattern", .str (kind ++ "/" ++ dev)),
        ("data", .obj [("name", .str dev), ("value", .bool false)])]

/-- One shutdown publishing loop (src/mpino_bridge.py:398-410 for `switch`,
412-425 for `current`): keys starting with `<kind>/` yield a publish to
`f"{kind}/{dev}"` where `dev = state_key.replace(kind + "/", "")`
(Python `str.replace` removes every occurrence, not only the prefix). -/
def shutdownTopicPubs (kind : String) (keys : List String) :
    List (String × String) :=
  (keys.filter (fun k => pyStartsWith k (kind ++ "/"))).map fun k =>
    let dev := pyReplace k (kind ++ "/") ""
    (kind ++ "/" ++ dev, dumps (offPayload kind dev))

/-- Runs a list of `client.publish` calls each wrapped in `try/except`:
the call is always attempted; a raise (per the numbered oracle) only
suppresses the success log.  Returns the effects and the next call index. -/
def attemptPubs (raises : Nat → Bool) : Nat → List (String × String) → List Effect × Nat
  | i, [] => ([], i)
  | i, (t, p) :: rest =>
    let (tail, n) := attemptPubs raises (i + 1) rest
    ((Effect.publish t p false ::
        (if raises i then [] else [Effect.log .info "shutdown published"])) ++ tail,
     n)

/-- The `shutdown` closure (src/mpino_bridge.py:368-443): guard on the flag,
set it, send the error report, force every tracked `switch/` key off, then
every `current/` key, publish retained "offline", stop the MQTT loop, close
the serial port and exit. -/
def shutdown (env : ShutdownEnv) (st : BridgeState) : BridgeState × List Effect :=
  if st.shutdown_flag then (st, [])
  else
    let keys := st.last_states.map Prod.fst
    let (swEffs, n1) := attemptPubs env.pubRaises 0 (shutdownTopicPubs "switch" keys)
    let (curEffs, _) := attemptPubs env.pubRaises n1 (shutdownTopicPubs "current" keys)
    ({ st with shutdown_flag := true },
     [Effect.log .info "shutting down"]
       ++ shutdownReport env.signinR env.reportR
       ++ swEffs ++ curEffs
       ++ [Effect.publish statusTopic "offline" true, Effect.loopStop,
           Effect.serialClose, Effect.log .info "shutdown complete",
           Effect.exitProc 0])

/-- Python `str.strip()` whitespace (ASCII part). -/
def pyWhitespace (c : Char) : Bool :=
  c == ' ' || c == '\t' || c == '\n' || c == '\r' || c == '\x0b' || c == '\x0c'

/-- Python `line.strip()` on a character list. -/
def pyStrip (l : List Char) : List Char :=
  ((l.dropWhile pyWhitespace).reverse.dropWhile pyWhitespace).reverse

/-- The repeated `buf.split('\n', 1)` of `serial_reader_loop`
(src/mpino_bridge.py:130-131): splits a buffer into the newline-terminated
segments (in order, without their newline) and the unterminated remainder. -/
def extract : List Char → List (List Char) × List Char
  | [] => ([], [])
  | c :: rest =>
    let (ls, r) := extract rest
    if c = '\n' then ([] :: ls, r)
    else
      match ls with
      | [] => ([], c :: r)
      | l :: ls2 => ((c :: l) :: ls2, r)

/-- Lines actually handed to `process_serial_line`: each split segment is
stripped and empty results are skipped (src/mpino_bridge.py:132-136). -/
def deliverLines (ls : List (List Char)) : List (List Char) :=
  (ls.map pyStrip).filter (fun l => !l.isEmpty)

/-- One iteration of the reader loop on a decoded chunk: append to the
buffer, split off complete lines, deliver them.  The state is the pair of
lines delivered so far and the buffer. -/
def feedChunk (st : List (List Char) × List Char) (chunk : List Char) :
    List (List Char) × List Char :=
  let (ls, r) := extract (st.2 ++ chunk)
  (st.1 ++ deliverLines ls, r)

/-- Feeding a sequence of decoded chunks from the loop's initial state
(`buf = ""`). -/
def feedChunks (chunks : List (List Char)) : List (List Char) × List Char :=
  chunks.foldl feedChunk ([], [])

/-- `data.decode('utf-8', errors='ignore')` on one received chunk of bytes
(src/mpino_bridge.py:126): UTF-8 decoding that silently skips invalid
bytes and drops truncated sequences.  Structural recursion on a fuel
argument (one unit per input byte suffices, since each step consumes at
least one byte). -/
def utf8DecodeFuel : Nat → List Nat → List Char
  | 0, _ => []
  | _ + 1, [] => []
  | fuel + 1, b :: rest =>
    if b < 0x80 then
      Char.ofNat b :: utf8DecodeFuel fuel rest
    else if 0xC2 ≤ b ∧ b ≤ 0xDF then
      match rest with
      | [] => []
      | b2 :: rest2 =>
        if 0x80 ≤ b2 ∧ b2 ≤ 0xBF then
          Char.ofNat ((b - 0xC0) * 64 + (b2 - 0x80)) :: utf8DecodeFuel fuel rest2
        else utf8DecodeFuel fuel rest
    else if 0xE0 ≤ b ∧ b ≤ 0xEF then
      match rest with
      | [] => []
      | [_] => []
      | b2 :: b3 :: rest3 =>
        if (0x80 ≤ b2 ∧ b2 ≤ 0xBF) ∧ (0x80 ≤ b3 ∧ b3 ≤ 0xBF)
           ∧ ¬(b = 0xE0 ∧ b2 < 0xA0) ∧ ¬(b = 0xED ∧ 0xA0 ≤ b2) then
          Char.ofNat ((b - 0xE0) * 4096 + (b2 - 0x80) * 64 + (b3 - 0x80))
            :: utf8DecodeFuel fuel rest3
        else utf8DecodeFuel fuel rest
    else if 0xF0 ≤ b ∧ b ≤ 0xF4 then
      match rest with
      | [] => []
      | [_] => []
      | [_, _] => []
      | b2 :: b3 :: b4 :: rest4 =>
        if (0x80 ≤ b2 ∧ b2 ≤ 0xBF) ∧ (0x80 ≤ b3 ∧ b3 ≤ 0xBF)
           ∧ (0x80 ≤ b4 ∧ b4 ≤ 0xBF)
           ∧ ¬(b = 0xF0 ∧ b2 < 0x90) ∧ ¬(b = 0xF4 ∧ 0x90 ≤ b2) then
          Char.ofNat ((b - 0xF0) * 262144 + (b2 - 0x80) * 4096
                        + (b3 - 0x80) * 64 + (b4 - 0x80))
            :: utf8DecodeFuel fuel rest4
        else utf8DecodeFuel fuel rest
    else utf8DecodeFuel fuel rest

/-- Lenient UTF-8 decoding of a whole chunk. -/
def utf8DecodeIgnore (bytes : List Nat) : List Char :=
  utf8DecodeFuel bytes.length bytes

/-- One reader-loop iteration on a raw byte chunk, as the source performs
it: decode this chunk alone (leniently), then feed the framer. -/
def feedByteChunk (st : List (List Char) × List Char) (chunk : List Nat) :
    List (List Char) × List Char :=
  feedChunk st (utf8DecodeIgnore chunk)

/-- Feeding a sequence of raw byte chunks from the initial state. -/
def feedByteChunks (chunks : List (List Nat)) : List (List Char) × List Char :=
  chunks.foldl feedByteChunk ([], [])

/-- Offering a list of lines to the outbound queue with `put_nowait` while
no consumer runs; returns the final queue and the rejected lines. -/
def offerAll : List String → List String → List String × List String
  | q, [] => (q, [])
  | q, l :: ls =>
    let (q', ok) := put_nowait q l
    let (qf, rej) := offerAll q' ls
    (qf, (if ok then ([] : List String) else [l]) ++ rej)

/-- Recognizer for publish effects. -/
def Effect.isPublish : Effect → Bool
  | .publish _ _ _ => true
  | _ => false

/-- Recognizer for queue-offer effects. -/
def Effect.isQueuePut : Effect → Bool
  | .queuePut _ => true
  | _ => false

/-- Recognizer for HTTP GET effects. -/
def Effect.isHttpGet : Effect → Bool
  | .httpGet _ => true
  | _ => false

/-- Recognizer for HTTP POST effects. -/
def Effect.isHttpPost : Effect → Bool
  | .httpPost _ => true
  | _ => false

/-- Recognizer for direct serial-write effects. -/
def Effect.isSerialWrite : Effect → Bool
  | .serialWrite _ => true
  | _ => false

/-- Number of publishes to a given topic in an effect list. -/
def pubsTo (t : String) (effs : List Effect) : Nat :=
  (effs.filter (fun e => match e with
    | .publish t' _ _ => t' == t
    | _ => false)).length

/-- One device-config synchronization applied to a fetched backend device
list (the body of `main`, src/mpino_bridge.py:357-361, equally the tail of
`handle_device_update`): filter to `type == 'machine'` entries (done inside
`fetch_devices_from_backend`), then push the config or warn when empty. -/
def configSync (writeOk : Bool) (devices : List (List (String × JVal))) :
    List Effect :=
  let machines := machineFilter devices
  if machines.isEmpty then
    [Effect.log .warning "starting without device configuration"]
  else (send_config_to_mpino writeOk machines).2

/-- The switch-command schema enforced by `on_mqtt_message`
(src/mpino_bridge.py:84-105): a JSON object whose `pattern` is a string
starting with `switch/` and whose `data` is an object with a string `name`
and boolean `value`; yields the extracted `(name, value)` pair. -/
def extractSwitchCmd : Option JVal → Option (String × Bool)
  | some (.obj j) =>
    match jGet j "pattern", jGet j "data" with
    | some (.str pat), some (.obj data) =>
      if pyStartsWith pat "switch/" then
        match jGet data "name", jGet data "value" with
        | some (.str name), some (.bool val) => some (name, val)
        | _, _ => none
      else none
    | _, _ => none
  | _ => none

/-- A fault-free shutdown environment: both backend calls fail fast over
the network and no `client.publish` raises. -/
def envNoFault : ShutdownEnv :=
  { signinR := .netError, reportR := .netError, pubRaises := fun _ => false }

/-- A running bridge whose only tracked key has a device name that itself
contains the string `switch/`. -/
def stNested : BridgeState :=
  { shutdown_flag := false, last_states := [("switch/switch/a", .bool true)] }

/-- A backend whose signin endpoint answers with a non-2xx status outside
the 4xx/5xx range (a final 301) whose JSON body still carries a truthy
`accessToken`, and whose device endpoint answers 200 with an empty list. -/
def beRedirect : Backend :=
  { signinR := .resp 301 (some (.obj [("accessToken", .str "tok")])),
    devicesR := .resp 200 (some (.arr [])) }

/-- The spec's shutdown example state: `{switch/led: true, current/pump: 12}`. -/
def stExample : BridgeState :=
  { shutdown_flag := false,
    last_states := [("switch/led", .bool true), ("current/pump", .num 12)] }

/-- Recognizer for the per-device missing-required-fields warning of
`send_config_to_mpino`. -/
def Effect.isMissingFieldsWarn : Effect → Bool
  | .log .warning "device missing required fields" => true
  | _ => false

/-- C3: a serial line parsing to a JSON object with `cmd="current"` and a
string `dev` makes the line processor perform exactly one MQTT publish to
`current/<dev>` carrying `{"pattern":"current/<dev>","data":{"name":<dev>,"value":<val>}}`
and set the `current/<dev>` state entry to `val`, regardless of whatever
was stored there before. -/
theorem process_current_republishes (st fields : List (String × JVal)) (d : String)
    (hc : jGet fields "cmd" = some (.str "current"))
    (hd : jGet fields "dev" = some (.str d)) :
    process_serial_line (some (.obj fields)) st
      = (dictSet st ("current/" ++ d) (jGetD fields "val" .null),
         [Effect.publish ("current/" ++ d)
            (dumps (JVal.obj [("pattern", .str ("current/" ++ d)),
                              ("data", .obj [("name", .str d),
                                             ("value", jGetD fields "val" .null)])]))
            false,
          Effect.log .info "published current"]) := by
  simp [process_serial_line, hc, hd]

/-- C3 witness: `{"cmd":"current","dev":"led","val":12}` against a state
that already stores a different value for `current/led`. -/
theorem process_current_republishes_witness :
    process_serial_line
        (some (.obj [("cmd", .str "current"), ("dev", .str "led"),
                     ("val", .num 12)]))
        [("current/led", .num 5)]
      = (dictSet [("current/led", .num 5)] ("current/" ++ "led")
           (jGetD [("cmd", .str "current"), ("dev", .str "led"),
                   ("val", .num 12)] "val" .null),
         [Effect.publish ("current/" ++ "led")
            (dumps (JVal.obj [("pattern", .str ("current/" ++ "led")),
                              ("data", .obj [("name", .str "led"),
                                             ("value", jGetD [("cmd", .str "current"),
                                               ("dev", .str "led"), ("val", .num 12)] "val" .null)])]))
            false,
          Effect.log .info "published current"]) :=
  process_current_republishes [("current/led", .num 5)] _ "led" rfl rfl

/-- C4: a serial line parsing to a JSON object with `cmd="switch"` and a
string `dev` never publishes to MQTT; it updates the `switch/<dev>` entry
and emits the state-change log only when the incoming value differs
(Python `!=`) from the stored one. -/
theorem process_switch_silent (st fields : List (String × JVal)) (d : String)
    (hc : jGet fields "cmd" = some (.str "switch"))
    (hd : jGet fields "dev" = some (.str d)) :
    process_serial_line (some (.obj fields)) st
      = (if pyEq (jGetD st ("switch/" ++ d) .null) (jGetD fields "val" .null)
         then (st, [Effect.log .debug "no change for switch"])
         else (dictSet st ("switch/" ++ d) (jGetD fields "val" .null),
               [Effect.log .info "switch state change"]))
    ∧ ((process_serial_line (some (.obj fields)) st).2.filter Effect.isPublish) = [] := by
  constructor
  · simp [process_serial_line, hc, hd]
  · by_cases h : pyEq (jGetD st ("switch/" ++ d) .null) (jGetD fields "val" .null)
      <;> simp [process_serial_line, hc, hd, h, Effect.isPublish]

/-- C4 witness: two consecutive identical `{"cmd":"switch","dev":"fan","val":true}`
lines; the theorem applied to the post-first-line state shows the second
line leaves the state unchanged and logs no state change. -/
theorem process_switch_silent_witness :
    (process_serial_line
        (some (.obj [("cmd", .str "switch"), ("dev", .str "fan"),
                     ("val", .bool true)]))
        [("switch/fan", .bool true)]
      = (if pyEq (jGetD [("switch/fan", .bool true)] ("switch/" ++ "fan") .null)
              (jGetD [("cmd", .str "switch"), ("dev", .str "fan"),
                      ("val", .bool true)] "val" .null)
         then ([("switch/fan", .bool true)], [Effect.log .debug "no change for switch"])
         else (dictSet [("switch/fan", .bool true)] ("switch/" ++ "fan")
                 (jGetD [("cmd", .str "switch"), ("dev", .str "fan"),
                         ("val", .bool true)] "val" .null),
               [Effect.log .info "switch state change"]))
    ∧ ((process_serial_line
          (some (.obj [("cmd", .str "switch"), ("dev", .str "fan"),
                       ("val", .bool true)]))
          [("switch/fan", .bool true)]).2.filter Effect.isPublish) = []) :=
  process_switch_silent [("switch/fan", .bool true)] _ "fan" rfl rfl

/-- C2: the shutdown flag starts false; triggering shutdown with the flag
already set is a complete no-op, and a first trigger sets the flag (leaving
the state map untouched) so that any second trigger is a no-op. -/
theorem shutdown_flag_guard :
    initialBridgeState.shutdown_flag = false
  ∧ (∀ (env : ShutdownEnv) (st : BridgeState),
       st.shutdown_flag = true → shutdown env st = (st, []))
  ∧ (∀ (env : ShutdownEnv) (st : BridgeState),
       st.shutdown_flag = false →
         (shutdown env st).1.shutdown_flag = true
         ∧ (shutdown env st).1.last_states = st.last_states
         ∧ ∀ env2 : ShutdownEnv,
             shutdown env2 (shutdown env st).1 = ((shutdown env st).1, [])) := by
  refine ⟨rfl, ?_, ?_⟩
  · intro env st h
    simp [shutdown, h]
  · intro env st h
    refine ⟨?_, ?_, ?_⟩ <;> simp [shutdown, h]

/-- C2 witness: on a concrete running state, the first trigger sets the
flag and the second trigger does nothing. -/
theorem shutdown_flag_guard_witness :
    (shutdown envNoFault stExample).1.shutdown_flag = true
    ∧ (shutdown envNoFault stExample).1.last_states = stExample.last_states
    ∧ ∀ env2 : ShutdownEnv,
        shutdown env2 (shutdown envNoFault stExample).1
          = ((shutdown envNoFault stExample).1, []) :=
  shutdown_flag_guard.2.2 envNoFault stExample rfl

/-- Case analysis of `on_mqtt_message` on a non-`device/update` topic:
a payload passing the switch-command schema is offered to the queue exactly
once; any other payload only logs a warning and leaves the queue alone. -/
theorem on_mqtt_switch_cases :
    (∀ (be : Backend) (sa wo : Bool) (topic : String) (payload : Option JVal)
       (q : List String) (name : String) (val : Bool),
       topic ≠ "device/update" →
       extractSwitchCmd payload = some (name, val) →
       on_mqtt_message be sa wo topic payload q
         = ((put_nowait q (switchLine name val)).1,
            [Effect.log .info "mqtt recv", Effect.queuePut (switchLine name val)]
              ++ (if (put_nowait q (switchLine name val)).2
                  then [Effect.log .info "enqueued to serial"]
                  else [Effect.log .error "serial queue full - dropping command"])))
  ∧ (∀ (be : Backend) (sa wo : Bool) (topic : String) (payload : Option JVal)
       (q : List String),
       topic ≠ "device/update" →
       extractSwitchCmd payload = none →
       ∃ s, on_mqtt_message be sa wo topic payload q
              = (q, [Effect.log .info "mqtt recv", Effect.log .warning s])) := by
  constructor
  · intro be sa wo topic payload q name val ht hx
    simp only [on_mqtt_message]
    rw [if_neg ht]
    split
    · next j =>
      split
      · next pat data hpat hdata =>
        split
        · next hsw =>
          split
          · next nm vl hn hv =>
            simp only [extractSwitchCmd, hpat, hdata, hsw, hn, hv, if_pos] at hx
            obtain ⟨rfl, rfl⟩ := Option.some.inj hx
            by_cases hq : q.length < serTxQMaxsize <;>
              simp [put_nowait, hq]
          · next hbad =>
            exfalso
            simp only [extractSwitchCmd, hpat, hdata, hsw, if_pos] at hx
            simp at hx
        · next hsw =>
          exfalso
          simp [extractSwitchCmd, hpat, hdata, hsw] at hx
      · next hbad =>
        exfalso
        simp [extractSwitchCmd] at hx
    · next hbad =>
      exfalso
      simp [extractSwitchCmd] at hx
  · intro be sa wo topic payload q ht hx
    simp only [on_mqtt_message]
    rw [if_neg ht]
    split
    · next j =>
      split
      · next pat data hpat hdata =>
        split
        · next hsw =>
          split
          · next nm vl hn hv =>
            exfalso
            simp [extractSwitchCmd, hpat, hdata, hsw, hn, hv] at hx
          · exact ⟨_, rfl⟩
        · exact ⟨_, rfl⟩
      · exact ⟨_, rfl⟩
    · exact ⟨_, rfl⟩

/-- C5: on a switch topic, a payload satisfying the switch-command schema
causes exactly one serial line `{"cmd":"switch","dev":<name>,"val":<value>}\n`
to be offered to the outbound queue; any schema violation only logs a
warning and leaves the queue untouched. -/
theorem mqtt_switch_validated_enqueue :
    (∀ (be : Backend) (sa wo : Bool) (topic : String) (payload : Option JVal)
       (q : List String) (name : String) (val : Bool),
       topic ≠ "device/update" →
       extractSwitchCmd payload = some (name, val) →
       on_mqtt_message be sa wo topic payload q
         = ((put_nowait q (switchLine name val)).1,
            [Effect.log .info "mqtt recv", Effect.queuePut (switchLine name val)]
              ++ (if (put_nowait q (switchLine name val)).2
                  then [Effect.log .info "enqueued to serial"]
                  else [Effect.log .error "serial queue full - dropping command"])))
  ∧ (∀ (be : Backend) (sa wo : Bool) (topic : String) (payload : Option JVal)
       (q : List String),
       topic ≠ "device/update" →
       extractSwitchCmd payload = none →
       ∃ s, on_mqtt_message be sa wo topic payload q
              = (q, [Effect.log .info "mqtt recv", Effect.log .warning s])) :=
  on_mqtt_switch_cases

/-- C5 witness: a valid `{"pattern":"switch/led","data":{"name":"led","value":true}}`
message on topic `switch/led` with an empty queue. -/
theorem mqtt_switch_validated_enqueue_witness :
    on_mqtt_message ⟨.netError, .netError⟩ true true "switch/led"
        (some (.obj [("pattern", .str "switch/led"),
                     ("data", .obj [("name", .str "led"), ("value", .bool true)])]))
        []
      = ((put_nowait [] (switchLine "led" true)).1,
         [Effect.log .info "mqtt recv", Effect.queuePut (switchLine "led" true)]
           ++ (if (put_nowait [] (switchLine "led" true)).2
               then [Effect.log .info "enqueued to serial"]
               else [Effect.log .error "serial queue full - dropping command"])) :=
  mqtt_switch_validated_enqueue.1 ⟨.netError, .netError⟩ true true "switch/led"
    _ [] "led" true (by decide) rfl

/-- C10: the `dev` field of the enqueued serial switch command comes only
from `data.name`; the delivery topic and the suffix of `pattern` after
`switch/` do not appear in the offered line. -/
theorem switch_dev_solely_from_data_name :
    ∀ (be : Backend) (sa wo : Bool) (topic : String)
      (j data : List (String × JVal)) (pat name : String) (val : Bool)
      (q : List String),
      topic ≠ "device/update" →
      jGet j "pattern" = some (.str pat) →
      pyStartsWith pat "switch/" = true →
      jGet j "data" = some (.obj data) →
      jGet data "name" = some (.str name) →
      jGet data "value" = some (.bool val) →
      ((on_mqtt_message be sa wo topic (some (.obj j)) q).2.filter Effect.isQueuePut)
        = [Effect.queuePut (switchLine name val)] := by
  intro be sa wo topic j data pat name val q ht hpat hsw hdata hn hv
  by_cases hq : q.length < serTxQMaxsize <;>
    simp [on_mqtt_message, ht, hpat, hdata, hsw, hn, hv, put_nowait, hq,
          Effect.isQueuePut]

/-- C10 witness: pattern suffix `X` and `data.name` `Y` differ; the offered
line carries `Y`. -/
theorem switch_dev_solely_from_data_name_witness :
    ((on_mqtt_message ⟨.netError, .netError⟩ true true "some/topic"
        (some (.obj [("pattern", .str "switch/X"),
                     ("data", .obj [("name", .str "Y"), ("value", .bool true)])]))
        []).2.filter Effect.isQueuePut)
      = [Effect.queuePut (switchLine "Y" true)] :=
  switch_dev_solely_from_data_name ⟨.netError, .netError⟩ true true "some/topic"
    _ _ "switch/X" "Y" true [] (by decide) rfl (by decide) rfl rfl rfl

/-- Offering lines to the queue with `put_nowait` while nothing consumes:
the first free slots accept in order, everything past capacity is
rejected, and rejections never disturb the queue. -/
theorem offerAll_take_drop (lines : List String) :
    ∀ q : List String, q.length ≤ serTxQMaxsize →
      offerAll q lines
        = (q ++ lines.take (serTxQMaxsize - q.length),
           lines.drop (serTxQMaxsize - q.length)) := by
  induction lines with
  | nil => intro q h; simp [offerAll]
  | cons l ls ih =>
    intro q h
    by_cases hq : q.length < serTxQMaxsize
    · have hrec := ih (q ++ [l]) (by simp; omega)
      have hsub : serTxQMaxsize - q.length = (serTxQMaxsize - (q.length + 1)) + 1 := by
        omega
      simp only [offerAll, put_nowait, if_pos hq, hrec, hsub, List.take_succ_cons,
        List.drop_succ_cons]
      simp
    · have hq' : ¬ q.length < serTxQMaxsize := hq
      have hsub : serTxQMaxsize - q.length = 0 := by omega
      simp [offerAll, put_nowait, hq', ih q h, hsub]

/-- C6: the outbound queue has fixed capacity 200 and `put_nowait` never
blocks: of 201 offered commands (none consumed) the first 200 are accepted
in FIFO order and the single 201st is rejected; a rejection leaves the
queue unchanged, and `on_mqtt_message` logs the drop. -/
theorem ser_tx_q_capacity_200_drop_newest :
    (∀ lines : List String, lines.length = 201 →
       offerAll [] lines = (lines.take 200, lines.drop 200)
       ∧ (lines.drop 200).length = 1)
  ∧ (∀ (q : List String) (line : String), 200 ≤ q.length →
       put_nowait q line = (q, false))
  ∧ (∀ (be : Backend) (sa wo : Bool) (topic : String) (payload : Option JVal)
       (q : List String) (name : String) (val : Bool),
       topic ≠ "device/update" →
       extractSwitchCmd payload = some (name, val) →
       200 ≤ q.length →
       on_mqtt_message be sa wo topic payload q
         = (q, [Effect.log .info "mqtt recv",
                Effect.queuePut (switchLine name val),
                Effect.log .error "serial queue full - dropping command"])) := by
  refine ⟨?_, ?_, ?_⟩
  · intro lines hlen
    have h := offerAll_take_drop lines [] (by simp [serTxQMaxsize])
    constructor
    · simpa [serTxQMaxsize] using h
    · simp [List.length_drop, hlen]
  · intro q line h
    simp [put_nowait, serTxQMaxsize]
    omega
  · intro be sa wo topic payload q name val ht hx hfull
    have hq : ¬ q.length < serTxQMaxsize := by
      simp [serTxQMaxsize]; omega
    have h := on_mqtt_switch_cases.1 be sa wo topic payload q name val ht hx
    simp [put_nowait, hq] at h
    simpa [put_nowait, hq] using h

/-- C6 witness: 201 concrete commands offered to an initially empty queue:
exactly the first 200 are queued, one is rejected. -/
theorem ser_tx_q_capacity_200_drop_newest_witness :
    offerAll [] (List.replicate 201 "x")
      = ((List.replicate 201 "x").take 200, (List.replicate 201 "x").drop 200)
    ∧ ((List.replicate 201 "x").drop 200).length = 1 :=
  ser_tx_q_capacity_200_drop_newest.1 (List.replicate 201 "x") (by simp)

/-- The conversion loop of `send_config_to_mpino`: the kept entries are the
ones with all required keys, converted in input order, and each dropped
entry contributes one warning. -/
theorem buildMpinoDevices_eq (ds : List (List (String × JVal))) :
    buildMpinoDevices ds
      = ((ds.filter hasRequiredKeys).map (fun d =>
           JVal.obj [("name", jGetD d "name" .null),
                     ("relay", jGetD d "relay_pin" .null),
                     ("current", jGetD d "current_pin" .null)]),
         (ds.filter (fun d => !hasRequiredKeys d)).map
           (fun _ => Effect.log .warning "device missing required fields")) := by
  induction ds with
  | nil => rfl
  | cons d rest ih =>
    by_cases h : hasRequiredKeys d <;> simp [buildMpinoDevices, h, ih]

/-- C7: one synchronization keeps the `type == "machine"` entries, drops
(with one warning each, without aborting) those missing `name`, `relay_pin`
or `current_pin`, and writes exactly one serial config command listing the
survivors in input order — or no command at all when none survive. -/
theorem config_sync_machine_filter (wo : Bool)
    (devices : List (List (String × JVal))) :
    ((configSync wo devices).filter Effect.isSerialWrite)
      = (if ((machineFilter devices).filter hasRequiredKeys).isEmpty then []
         else [Effect.serialWrite (dumps (JVal.obj [("cmd", .str "config"),
                 ("devices", .arr (((machineFilter devices).filter hasRequiredKeys).map
                    (fun d => JVal.obj [("name", jGetD d "name" .null),
                                        ("relay", jGetD d "relay_pin" .null),
                                        ("current", jGetD d "current_pin" .null)])))])
                 ++ "\n")])
    ∧ ((configSync wo devices).filter Effect.isMissingFieldsWarn).length
        = ((machineFilter devices).filter (fun d => !hasRequiredKeys d)).length := by
  have hws : Effect.isMissingFieldsWarn
      (.log .warning "starting without device configuration") = false := by decide
  have hrep : ∀ n : Nat, (List.replicate n
      (Effect.log .warning "device missing required fields")).filter
        Effect.isMissingFieldsWarn
      = List.replicate n (Effect.log .warning "device missing required fields") := by
    intro n
    induction n with
    | zero => rfl
    | succ n ih => simp only [List.replicate_succ, List.filter_cons, ih]; rfl
  by_cases hm : (machineFilter devices).isEmpty
  · have hsub : (machineFilter devices).filter hasRequiredKeys = [] := by
      rcases List.isEmpty_iff.mp hm with h
      simp [h]
    have hsub2 : (machineFilter devices).filter (fun d => !hasRequiredKeys d) = [] := by
      rcases List.isEmpty_iff.mp hm with h
      simp [h]
    simp [configSync, hm, hsub, hsub2, Effect.isSerialWrite, hws]
  · by_cases hs : ((machineFilter devices).filter hasRequiredKeys).isEmpty
    · have hmp : ((machineFilter devices).filter hasRequiredKeys).map (fun d =>
          JVal.obj [("name", jGetD d "name" .null),
                    ("relay", jGetD d "relay_pin" .null),
                    ("current", jGetD d "current_pin" .null)]) = [] := by
        rcases List.isEmpty_iff.mp hs with h
        simp [h]
      simp [configSync, hm, send_config_to_mpino, buildMpinoDevices_eq, hmp, hs,
            Effect.isSerialWrite, List.filter_map, Function.comp, hrep,
            Effect.isMissingFieldsWarn]
    · have hmp : ¬ (((machineFilter devices).filter hasRequiredKeys).map (fun d =>
          JVal.obj [("name", jGetD d "name" .null),
                    ("relay", jGetD d "relay_pin" .null),
                    ("current", jGetD d "current_pin" .null)])).isEmpty := by
        simp only [List.isEmpty_iff, List.map_eq_nil_iff]
        exact fun h => hs (by simp [h])
      cases wo <;>
        simp [configSync, hm, send_config_to_mpino, buildMpinoDevices_eq, hmp, hs,
              Effect.isSerialWrite, List.filter_map, Function.comp, hrep,
              Effect.isMissingFieldsWarn]

/-- C8 (amended): when the signin step fails as the code detects failure —
network error, a 4xx/5xx response (the only statuses `raise_for_status`
raises for), or a JSON-object response with no `accessToken` field — the
whole synchronization attempt triggered by a device-update notification
aborts with an error log: the device list is never fetched, no config
command reaches the serial port, and the signin endpoint is contacted
exactly once (no retry). -/
theorem signin_failure_aborts_sync (be : Backend) (sa wo : Bool)
    (pf : List (String × JVal))
    (h : be.signinR = HttpResult.netError
         ∨ (∃ s b, be.signinR = .resp s b ∧ 400 ≤ s ∧ s < 600)
         ∨ (∃ s fields, be.signinR = .resp s (some (.obj fields))
              ∧ ¬(400 ≤ s ∧ s < 600) ∧ jGet fields "accessToken" = none)) :
    ((handle_device_update be sa wo (some (.obj pf))).filter Effect.isHttpGet) = []
    ∧ ((handle_device_update be sa wo (some (.obj pf))).filter Effect.isSerialWrite) = []
    ∧ ((handle_device_update be sa wo (some (.obj pf))).filter Effect.isHttpPost).length = 1
    ∧ Effect.log .error "failed to get auth token"
        ∈ handle_device_update be sa wo (some (.obj pf)) := by
  have key : ∃ s, get_auth_token be.signinR
      = (none, [Effect.log .info "getting auth token", Effect.httpPost signinUrl,
                Effect.log .error s]) := by
    rcases h with h | ⟨st, b, hr, h4, h6⟩ | ⟨st, fields, hr, hs, hm⟩
    · exact ⟨"error getting auth token", by simp [h, get_auth_token]⟩
    · exact ⟨"error getting auth token",
        by simp [hr, get_auth_token, if_pos (And.intro h4 h6)]⟩
    · exact ⟨"no access token in response",
        by simp [hr, get_auth_token, hs, jGetD, hm, pyTruthy]⟩
  obtain ⟨s, hget⟩ := key
  simp [handle_device_update, fetch_devices_from_backend, hget,
        Effect.isHttpGet, Effect.isSerialWrite, Effect.isHttpPost]

/-- C8 counterexample to the claim as stated: a non-2xx signin response is
not necessarily a failure.  `requests.raise_for_status` raises only for
4xx/5xx, so a final 301 response whose body carries a truthy `accessToken`
yields a token and the synchronization proceeds: the device list is
fetched (one HTTP GET) instead of the attempt being aborted. -/
theorem signin_redirect_not_aborted_counterexample :
    beRedirect.signinR = .resp 301 (some (.obj [("accessToken", .str "tok")]))
    ∧ ¬ (200 ≤ (301 : Nat) ∧ (301 : Nat) < 300)
    ∧ ((handle_device_update beRedirect true true (some (.obj []))).filter
         Effect.isHttpGet).length = 1 := by
  refine ⟨rfl, by decide, ?_⟩
  rfl

/-- C8 witness: a network error during signin on a concrete device-update
trigger. -/
theorem signin_failure_aborts_sync_witness :
    ((handle_device_update ⟨.netError, .netError⟩ true true (some (.obj []))).filter
        Effect.isHttpGet) = []
    ∧ ((handle_device_update ⟨.netError, .netError⟩ true true (some (.obj []))).filter
        Effect.isSerialWrite) = []
    ∧ ((handle_device_update ⟨.netError, .netError⟩ true true (some (.obj []))).filter
        Effect.isHttpPost).length = 1
    ∧ Effect.log .error "failed to get auth token"
        ∈ handle_device_update ⟨.netError, .netError⟩ true true (some (.obj [])) :=
  signin_failure_aborts_sync ⟨.netError, .netError⟩ true true [] (Or.inl rfl)

/-- The token fetch performs no MQTT publish. -/
theorem get_auth_token_no_publish (r : HttpResult) :
    ((get_auth_token r).2.filter Effect.isPublish) = [] := by
  unfold get_auth_token
  repeat' split
  all_goals dsimp only
  repeat' split
  all_goals rfl

/-- The error-report step performs no MQTT publish, whatever the backend
does. -/
theorem shutdownReport_no_publish (r1 r2 : HttpResult) :
    (shutdownReport r1 r2).filter Effect.isPublish = [] := by
  have h := get_auth_token_no_publish r1
  unfold shutdownReport
  rcases hg : get_auth_token r1 with ⟨tok, e1⟩
  rw [hg] at h
  simp only at h
  simp only [hg]
  rcases tok with _ | t
  · simp [List.filter_append, h, Effect.isPublish]
  · rcases r2 with _ | ⟨s2, b2⟩
    · simp [List.filter_append, h, Effect.isPublish]
    · by_cases h201 : s2 = 201 <;>
        simp [List.filter_append, h, h201, Effect.isPublish]

/-- Every publish of a `try`-wrapped publishing loop is attempted exactly
once, in order, regardless of which calls raise. -/
theorem attemptPubs_filter (raises : Nat → Bool) (ps : List (String × String)) :
    ∀ i, (((attemptPubs raises i ps).1.filter Effect.isPublish)
      = ps.map (fun tp => Effect.publish tp.1 tp.2 false)) := by
  induction ps with
  | nil => intro i; rfl
  | cons tp rest ih =>
    intro i
    by_cases h : raises i <;>
      simp [attemptPubs, h, Effect.isPublish, ih (i + 1)]

/-- C1 (amended): a first shutdown trigger attempts, independently of any
report or publish failure, exactly one `value:false` publish per tracked
`switch/` key, then one per `current/` key, then the retained `"offline"`
status publish — with the device segment of each topic computed by removing
every occurrence of the kind prefix from the key (Python `str.replace`). -/
theorem shutdown_forces_all_off (env : ShutdownEnv) (st : BridgeState)
    (h : st.shutdown_flag = false) :
    ((shutdown env st).2.filter Effect.isPublish)
      = ((st.last_states.map Prod.fst).filter
            (fun k => pyStartsWith k "switch/")).map
          (fun k => Effect.publish ("switch/" ++ pyReplace k "switch/" "")
             (dumps (offPayload "switch" (pyReplace k "switch/" ""))) false)
        ++ ((st.last_states.map Prod.fst).filter
              (fun k => pyStartsWith k "current/")).map
          (fun k => Effect.publish ("current/" ++ pyReplace k "current/" "")
             (dumps (offPayload "current" (pyReplace k "current/" ""))) false)
        ++ [Effect.publish statusTopic "offline" true] := by
  have hsw : ("switch" : String) ++ "/" = "switch/" := rfl
  have hcu : ("current" : String) ++ "/" = "current/" := rfl
  simp only [shutdown, h, Bool.false_eq_true, if_false]
  rcases h1 : attemptPubs env.pubRaises 0
      (shutdownTopicPubs "switch" (st.last_states.map Prod.fst)) with ⟨swEffs, n1⟩
  rcases h2 : attemptPubs env.pubRaises n1
      (shutdownTopicPubs "current" (st.last_states.map Prod.fst)) with ⟨curEffs, n2⟩
  have hswf := attemptPubs_filter env.pubRaises
    (shutdownTopicPubs "switch" (st.last_states.map Prod.fst)) 0
  have hcuf := attemptPubs_filter env.pubRaises
    (shutdownTopicPubs "current" (st.last_states.map Prod.fst)) n1
  rw [h1] at hswf
  rw [h2] at hcuf
  simp only [h1, h2]
  simp [List.filter_append, shutdownReport_no_publish, hswf, hcuf,
        shutdownTopicPubs, hsw, hcu, List.map_map, Function.comp,
        Effect.isPublish]
  rfl

/-- C1 counterexample to the claim as stated: for the tracked key
`switch/switch/a` (device name `switch/a`), the first shutdown trigger
makes no publish at all to `switch/switch/a`; the `value:false` publish
goes to `switch/a` instead, because the device segment is computed with
`str.replace`, which removes every occurrence of `"switch/"`. -/
theorem shutdown_topic_replace_counterexample :
    pyStartsWith "switch/switch/a" "switch/" = true
    ∧ stNested.shutdown_flag = false
    ∧ stNested.last_states.map Prod.fst = ["switch/switch/a"]
    ∧ pubsTo "switch/switch/a" (shutdown envNoFault stNested).2 = 0
    ∧ pubsTo "switch/a" (shutdown envNoFault stNested).2 = 1 := by
  refine ⟨by decide, rfl, rfl, ?_, ?_⟩ <;> rfl

/-- C1 witness (amended claim): the spec's example state
`{switch/led: true, current/pump: 12}` under a fault-free environment. -/
theorem shutdown_forces_all_off_witness :
    ((shutdown envNoFault stExample).2.filter Effect.isPublish)
      = ((stExample.last_states.map Prod.fst).filter
            (fun k => pyStartsWith k "switch/")).map
          (fun k => Effect.publish ("switch/" ++ pyReplace k "switch/" "")
             (dumps (offPayload "switch" (pyReplace k "switch/" ""))) false)
        ++ ((stExample.last_states.map Prod.fst).filter
              (fun k => pyStartsWith k "current/")).map
          (fun k => Effect.publish ("current/" ++ pyReplace k "current/" "")
             (dumps (offPayload "current" (pyReplace k "current/" ""))) false)
        ++ [Effect.publish statusTopic "offline" true] :=
  shutdown_forces_all_off envNoFault stExample rfl

/-- The buffer left by the splitting loop never contains a newline. -/
theorem extract_no_newline : ∀ l : List Char, '\n' ∉ (extract l).2 := by
  intro l
  induction l with
  | nil => simp [extract]
  | cons c rest ih =>
    rcases hx : extract rest with ⟨ls, r⟩
    rw [hx] at ih
    simp only at ih
    by_cases hc : c = '\n'
    · simpa [extract, hx, hc] using ih
    · rcases ls with _ | ⟨l0, ls2⟩
      · simp only [extract, hx, hc, if_false]
        intro hmem
        rcases List.mem_cons.mp hmem with he | hr
        · exact hc he.symm
        · exact ih hr
      · simpa [extract, hx, hc] using ih

/-- A newline-free buffer splits into no lines. -/
theorem extract_eq_of_no_newline : ∀ l : List Char, '\n' ∉ l → extract l = ([], l) := by
  intro l
  induction l with
  | nil => intro _; rfl
  | cons c rest ih =>
    intro h
    have hc : ¬ c = '\n' := fun he => h (he ▸ List.mem_cons_self c rest)
    have hrest : '\n' ∉ rest := fun hr => h (List.mem_cons_of_mem c hr)
    simp [extract, ih hrest, hc]

/-- Splitting distributes over concatenation: the lines of `x ++ y` are the
lines of `x` followed by the lines of `x`'s remainder glued to `y`. -/
theorem extract_append : ∀ x y : List Char,
    extract (x ++ y)
      = ((extract x).1 ++ (extract ((extract x).2 ++ y)).1,
         (extract ((extract x).2 ++ y)).2) := by
  intro x
  induction x with
  | nil => intro y; simp [extract]
  | cons c rest ih =>
    intro y
    rcases hx : extract rest with ⟨ls, r⟩
    have ihy := ih y
    rw [hx] at ihy
    simp only at ihy
    by_cases hc : c = '\n'
    · subst hc
      simp [extract, hx, ihy, List.cons_append]
    · rcases ls with _ | ⟨l0, ls2⟩
      · rcases hA : extract (r ++ y) with ⟨la, ra⟩
        rw [hA] at ihy
        simp only at ihy
        rcases la with _ | ⟨a0, as2⟩ <;>
          simp [extract, hx, ihy, hc, hA, List.cons_append]
      · rcases hA : extract (r ++ y) with ⟨la, ra⟩
        rw [hA] at ihy
        simp only at ihy
        simp [extract, hx, ihy, hc, hA, List.cons_append]

/-- Delivered lines distribute over concatenation of split results. -/
theorem deliverLines_append (a b : List (List Char)) :
    deliverLines (a ++ b) = deliverLines a ++ deliverLines b := by
  simp [deliverLines]

/-- Feeding chunks one at a time equals feeding their concatenation, from
any reachable state (newline-free buffer). -/
theorem foldl_feedChunk_join (chunks : List (List Char)) :
    ∀ st : List (List Char) × List Char, '\n' ∉ st.2 →
      chunks.foldl feedChunk st = feedChunk st chunks.flatten := by
  induction chunks with
  | nil =>
    intro st h
    simp [feedChunk, extract_eq_of_no_newline st.2 h, deliverLines]
  | cons c cs ih =>
    intro st h
    have hstep : '\n' ∉ (feedChunk st c).2 := by
      simp only [feedChunk]
      rcases hE : extract (st.2 ++ c) with ⟨ls, r⟩
      have := extract_no_newline (st.2 ++ c)
      rw [hE] at this
      simpa using this
    rw [List.foldl_cons, ih _ hstep]
    have hEA := extract_append (st.2 ++ c) cs.flatten
    rcases hA : extract (st.2 ++ c) with ⟨la, ra⟩
    rw [hA] at hEA
    simp only at hEA
    show feedChunk (feedChunk st c) cs.flatten = feedChunk st (c :: cs).flatten
    simp only [feedChunk, hA, List.flatten_cons]
    rw [← List.append_assoc, hEA]
    simp [deliverLines_append, List.append_assoc]

/-- C9 (amended): line framing is chunking-invariant over the decoded
character stream: feeding any chunk partition of a character stream
delivers exactly the lines of feeding the whole stream at once, and the
unterminated remainder stays buffered (newline-free), never delivered. -/
theorem framer_chunking_invariant_chars (chunks : List (List Char)) :
    feedChunks chunks = feedChunks [chunks.flatten]
    ∧ (feedChunks chunks).1 = deliverLines (extract chunks.flatten).1
    ∧ (feedChunks chunks).2 = (extract chunks.flatten).2
    ∧ '\n' ∉ (feedChunks chunks).2 := by
  have h := foldl_feedChunk_join chunks ([], []) (by simp)
  have hsingle : feedChunks [chunks.flatten] = feedChunk ([], []) chunks.flatten := by
    simp [feedChunks]
  have hnil : feedChunk ([], []) chunks.flatten
      = (deliverLines (extract chunks.flatten).1, (extract chunks.flatten).2) := by
    simp [feedChunk]
  refine ⟨?_, ?_, ?_, ?_⟩
  · rw [feedChunks, h, hsingle]
  · rw [feedChunks, h, hnil]
  · rw [feedChunks, h, hnil]
  · rw [feedChunks, h, hnil]
    exact extract_no_newline chunks.flatten

/-- C9 counterexample to the claim as stated over byte streams: the
two-byte UTF-8 character `é` (0xC3 0xA9) followed by a newline, split
between its two bytes.  Each chunk is decoded on its own with
`errors='ignore'`, so both bytes are discarded and the chunked feed
delivers no line, while feeding the whole stream at once delivers the
line `é`. -/
theorem framer_byte_chunking_counterexample :
    ([[0xC3], [0xA9, 0x0A]] : List (List Nat)).flatten = [0xC3, 0xA9, 0x0A]
    ∧ feedByteChunks [[0xC3], [0xA9, 0x0A]] ≠ feedByteChunks [[0xC3, 0xA9, 0x0A]]
    ∧ (feedByteChunks [[0xC3], [0xA9, 0x0A]]).1 = []
    ∧ (feedByteChunks [[0xC3, 0xA9, 0x0A]]).1 = [['é']] := by
  refine ⟨rfl, ?_, rfl, rfl⟩
  decide
